import Mathlib

/-!
Verification of the dataset loading / normalization / filtering pipeline of
the `mini_trabalho_dados` dashboard.

The JavaScript source is shallowly embedded: JS numbers that matter here are
integers (`Int`) and decimal values (`Rat`, exact rationals, standing in for
the floating-point parses); `NaN` results of `parseInt` / `parseFloat` are
`Option.none`; a truthiness test `x || d` on a parse result is modelled by
an explicit match on the option (with `0` falsy, as in JS).  Fetches and the
CSV parser are modelled by `Except` results supplied as parameters, so the
`try`/`catch` control flow of `loadDataset` becomes an explicit cascade of
matches.  DOM writes (citation text, loader text, apply-button state) become
fields of an explicit result record.
-/

namespace MT

/-- ASCII whitespace recognised by the embedding of JS `trim` /
numeric-parsing whitespace skipping: space, tab, newline, carriage return,
vertical tab, form feed. -/
def isJsWhitespace (c : Char) : Bool :=
  c = ' ' || c = '\t' || c = '\n' || c = '\r' || c = '\x0b' || c = '\x0c'

/-- Embedding of JS `String.prototype.trim`: drop leading and trailing
whitespace. -/
def jsTrim (s : String) : String :=
  String.mk (((s.toList.dropWhile isJsWhitespace).reverse.dropWhile
    isJsWhitespace).reverse)

/-- Embedding of `x || dflt` where `x` is a JS string that may be
`undefined` (`none`): `undefined` and the empty string are falsy. -/
def jsOrString (x : Option String) (dflt : String) : String :=
  match x with
  | none => dflt
  | some s => if s = "" then dflt else s

/-- Embedding of `x || 0` where `x` is the result of `parseInt`
(`none` = NaN); `0` itself is falsy in JS, so it maps to the literal `0`. -/
def jsOrZeroInt (x : Option Int) : Int :=
  match x with
  | none => 0
  | some n => if n = 0 then 0 else n

/-- Embedding of `x || 0` where `x` is the result of `parseFloat`
(`none` = NaN); `0` (and `-0`) are falsy in JS. -/
def jsOrZeroRat (x : Option Rat) : Rat :=
  match x with
  | none => 0
  | some q => if q = 0 then 0 else q

/-- Value of a decimal digit, `none` for any other character. -/
def digitVal10 (c : Char) : Option Nat :=
  if c.isDigit then some (c.toNat - 48) else none

/-- Value of a hexadecimal digit, `none` for any other character. -/
def digitVal16 (c : Char) : Option Nat :=
  if c.isDigit then some (c.toNat - 48)
  else if 'a' ≤ c ∧ c ≤ 'f' then some (c.toNat - 87)
  else if 'A' ≤ c ∧ c ≤ 'F' then some (c.toNat - 55)
  else none

/-- Accumulate the value of a digit string under the given radix. -/
def digitsVal (dv : Char → Option Nat) (radix : Nat) (ds : List Char) : Nat :=
  ds.foldl (fun a c => a * radix + (dv c).getD 0) 0

/-- Embedding of JS `parseInt(s)` with the radix argument omitted: skip
leading whitespace, read an optional sign, switch to base 16 on a `0x`/`0X`
prefix, then take the longest run of digits; `none` models the NaN result
when no digit is found. -/
def parseIntJS (s : String) : Option Int :=
  let cs := s.toList.dropWhile isJsWhitespace
  let signed : Bool × List Char :=
    match cs with
    | '-' :: rest => (true, rest)
    | '+' :: rest => (false, rest)
    | _ => (false, cs)
  let based : (Char → Option Nat) × Nat × List Char :=
    match signed.2 with
    | '0' :: 'x' :: rest => (digitVal16, 16, rest)
    | '0' :: 'X' :: rest => (digitVal16, 16, rest)
    | _ => (digitVal10, 10, signed.2)
  let ds := based.2.2.takeWhile (fun c => (based.1 c).isSome)
  if ds.isEmpty then none
  else
    let n : Nat := digitsVal based.1 based.2.1 ds
    some (if signed.1 then -(n : Int) else (n : Int))

/-- Exponent digits with optional sign, `0` when no digit follows (JS then
leaves the exponent part unconsumed, which is the same as exponent 0). -/
def signedDigits (cs : List Char) : Int :=
  let signed : Bool × List Char :=
    match cs with
    | '-' :: rest => (true, rest)
    | '+' :: rest => (false, rest)
    | _ => (false, cs)
  let ds := signed.2.takeWhile Char.isDigit
  if ds.isEmpty then 0
  else
    let n : Nat := digitsVal digitVal10 10 ds
    if signed.1 then -(n : Int) else (n : Int)

/-- Exponent part of a JS decimal literal: `e`/`E` followed by signed
digits; anything else contributes exponent 0. -/
def expPart (cs : List Char) : Int :=
  match cs with
  | 'e' :: rest => signedDigits rest
  | 'E' :: rest => signedDigits rest
  | _ => 0

/-- Scale a rational by a signed power of ten. -/
def scalePow10 (q : Rat) (e : Int) : Rat :=
  if 0 ≤ e then q * (10 : Rat) ^ e.toNat else q / (10 : Rat) ^ (-e).toNat

/-- Embedding of JS `parseFloat(s)` on decimal literals: skip leading
whitespace, read an optional sign, integer digits, an optional fraction and
an optional exponent; `none` models NaN when no digit is found.  The result
is the exact rational value of the literal (the embedding does not round to
binary floating point, and the `Infinity` literal is not modelled). -/
def parseFloatJS (s : String) : Option Rat :=
  let cs := s.toList.dropWhile isJsWhitespace
  let signed : Bool × List Char :=
    match cs with
    | '-' :: rest => (true, rest)
    | '+' :: rest => (false, rest)
    | _ => (false, cs)
  let intDs := signed.2.takeWhile Char.isDigit
  let rest1 := signed.2.dropWhile Char.isDigit
  let fracPart : List Char × List Char :=
    match rest1 with
    | '.' :: r => (r.takeWhile Char.isDigit, r.dropWhile Char.isDigit)
    | _ => ([], rest1)
  if intDs.isEmpty ∧ fracPart.1.isEmpty then none
  else
    let ip : Rat := (digitsVal digitVal10 10 intDs : Nat)
    let fp : Rat :=
      (digitsVal digitVal10 10 fracPart.1 : Nat) / (10 : Rat) ^ fracPart.1.length
    let v := scalePow10 (ip + fp) (expPart fracPart.2)
    some (if signed.1 then -v else v)

/-- One raw CSV row as produced by `Papa.parse` with `header: true`: a map
from header name to cell text, `none` for a header absent from the row
(JS `undefined`). -/
def RawRow : Type := String → Option String

/-- Static descriptor of one dataset, as `loadDataset` in `script.js` reads
it from `datasetsConfig[datasetKey]`: key, column-rename mapping
(original CSV header to semantic field name), year bounds, and the main
indicator field used by the filter tables. -/
structure DatasetConfig where
  key : String
  columnMap : List (String × String)
  minYear : Int
  maxYear : Int
  mainIndicator : String
deriving DecidableEq

/-- One normalized observation, as built by the row mapper inside
`loadDataset`: trimmed entity, integer year, and one rational field per
column-map entry. -/
structure Record where
  Entity : String
  Year : Int
  fields : List (String × Rat)
deriving DecidableEq

/-- Value of a named numeric field of a record, `0` when absent. -/
def Record.field (r : Record) (name : String) : Rat :=
  (r.fields.lookup name).getD 0

/-- Embedding of the row mapper in `loadDataset` (`script.js`):
`Entity: String(row.Entity || 'Desconhecido').trim()`,
`Year: parseInt(row.Year) || 0`, and for every `(original, newName)` of
`config.columnMap` the field `newName: parseFloat(row[original]) || 0`.
`parseInt`/`parseFloat` applied to `undefined` give NaN, hence the `bind`. -/
def normalizeRow (cfg : DatasetConfig) (row : RawRow) : Record :=
  { Entity := jsTrim (jsOrString (row "Entity") "Desconhecido")
    Year := jsOrZeroInt ((row "Year").bind parseIntJS)
    fields := cfg.columnMap.map
      (fun p => (p.2, jsOrZeroRat ((row p.1).bind parseFloatJS))) }

/-- Embedding of the row filter in `loadDataset`:
`row.Entity !== 'Desconhecido' && row.Year >= config.minYear &&
row.Year <= config.maxYear`. -/
def keepRow (cfg : DatasetConfig) (r : Record) : Bool :=
  r.Entity != "Desconhecido" && decide (cfg.minYear ≤ r.Year)
    && decide (r.Year ≤ cfg.maxYear)

/-- The `results.data.map(...).filter(...)` pipeline of `loadDataset`. -/
def processCsv (cfg : DatasetConfig) (rows : List RawRow) : List Record :=
  (rows.map (normalizeRow cfg)).filter (keepRow cfg)

/-- Metadata as `loadDataset` consumes it: the value of
`metadata.chart?.citation` (`none` when the chain yields `undefined`). -/
structure Metadata where
  chartCitation : Option String
deriving DecidableEq

/-- The citation text written to the DOM:
`metadata.chart?.citation || "Fonte: " + datasetKey`. -/
def citationText (meta : Metadata) (key : String) : String :=
  jsOrString meta.chartCitation ("Fonte: " ++ key)

/-- Observable outcome of one `loadDataset` call: the citation text written
(if any), the dataset rows assigned to `config.data` (if any), the final
loader text (`some` error text, `none` when the loader was hidden on
success), and whether the apply button was enabled. -/
structure LoadResult where
  citationSet : Option String
  data : Option (List Record)
  loaderError : Option String
  applyEnabled : Bool

/-- Embedding of `loadDataset` (`script.js`).  The metadata fetch + JSON
parse, the CSV fetch, and `Papa.parse` are the three fallible steps inside
the single `try` block; any `Except.error` jumps to the `catch`, which
writes `Erro: <message>` into the loader and touches nothing else. -/
def loadDataset (cfg : DatasetConfig) (metaResult : Except String Metadata)
    (csvFetch : Except String String)
    (papaParse : String → Except String (List RawRow)) : LoadResult :=
  match metaResult with
  | .error e =>
      { citationSet := none, data := none
        loaderError := some ("Erro: " ++ e), applyEnabled := false }
  | .ok meta =>
      let cit := citationText meta cfg.key
      match csvFetch with
      | .error e =>
          { citationSet := some cit, data := none
            loaderError := some ("Erro: " ++ e), applyEnabled := false }
      | .ok text =>
          match papaParse text with
          | .error e =>
              { citationSet := some cit, data := none
                loaderError := some ("Erro: " ++ e), applyEnabled := false }
          | .ok rows =>
              { citationSet := some cit, data := some (processCsv cfg rows)
                loaderError := none, applyEnabled := true }

/-- Per-dataset `data` store of the dashboard (`datasetsConfig[k].data`),
`none` for a dataset never populated. -/
def DashState : Type := String → Option (List Record)

/-- Effect of one finished `loadDataset` call on the per-dataset store: only
the loaded key is ever written, and only when the load reached the
assignment `config.data = ...`. -/
def applyLoadResult (st : DashState) (key : String) (res : LoadResult) :
    DashState :=
  fun k => if k = key then
    match res.data with
    | some d => some d
    | none => st k
  else st k

/-- Lower bound actually used by the Range Filter: the spec swaps the two
bounds when `minYear > maxYear`. -/
def swapLo (minYear maxYear : Int) : Int :=
  if minYear > maxYear then maxYear else minYear

/-- Upper bound actually used by the Range Filter after the swap. -/
def swapHi (minYear maxYear : Int) : Int :=
  if minYear > maxYear then minYear else maxYear

/-- Year-in-range test of the Range Filter. -/
def inRange (lo hi : Int) (r : Record) : Bool :=
  decide (lo ≤ r.Year) && decide (r.Year ≤ hi)

/-- Distinct elements of a list, first occurrence order kept. -/
def dedupKeepFirst {α : Type} [BEq α] (seen : List α) : List α → List α
  | [] => []
  | x :: xs =>
      if seen.contains x then dedupKeepFirst seen xs
      else x :: dedupKeepFirst (x :: seen) xs

/-- Insert an integer into an ascending list. -/
def insertAsc (y : Int) : List Int → List Int
  | [] => [y]
  | x :: xs => if y ≤ x then y :: x :: xs else x :: insertAsc y xs

/-- Ascending insertion sort on integers. -/
def sortAsc (ys : List Int) : List Int := ys.foldr insertAsc []

/-- Arithmetic mean of a list of rationals, `0` for the empty list (never
hit for the groups built below, which are nonempty by construction). -/
def meanRat (xs : List Rat) : Rat :=
  if xs.isEmpty then 0 else xs.sum / (xs.length : Rat)

/-- Output of the Range Filter: the in-range rows (order preserved), the
per-entity average table and the per-year progress table. -/
structure FilterOutput where
  filteredData : List Record
  avgTable : List (String × Rat)
  progressTable : List (Int × Rat)
deriving DecidableEq

/-- Modelled from the spec: the Range Filter (`applyFilters`) is invoked by
the listeners in the source but its body is not among the repository files,
so it is reconstructed from spec section 4.3: swap the bounds when
`minYear > maxYear`, keep the records with `Year` in the inclusive range
preserving order, then build the per-entity average table (distinct
entities of `filteredData`, mean of the main indicator) and the per-year
progress table (distinct years in range, ascending, mean of the main
indicator). -/
def rangeFilter (data : List Record) (indicator : String)
    (minYear maxYear : Int) : FilterOutput :=
  let lo := swapLo minYear maxYear
  let hi := swapHi minYear maxYear
  let filtered := data.filter (inRange lo hi)
  let entities := dedupKeepFirst [] (filtered.map (fun r => r.Entity))
  let avg := entities.map (fun e =>
    (e, meanRat (((filtered.filter (fun r => r.Entity == e)).map
      (fun r => r.field indicator)))))
  let years := sortAsc (dedupKeepFirst [] (filtered.map (fun r => r.Year)))
  let prog := years.map (fun y =>
    (y, meanRat (((filtered.filter (fun r => r.Year == y)).map
      (fun r => r.field indicator)))))
  { filteredData := filtered, avgTable := avg, progressTable := prog }

/-- Mutable per-dataset state touched by a filter application: the loaded
rows and the currently filtered subset. -/
structure Dataset where
  data : List Record
  filteredData : List Record
deriving DecidableEq

/-- Modelled from the spec: one filter-apply action on a dataset — compute
the Range Filter output from `data` and store its `filteredData`; `data`
itself is read, never written. -/
def applyRangeFilter (cfg : DatasetConfig) (ds : Dataset)
    (minYear maxYear : Int) : Dataset × FilterOutput :=
  let out := rangeFilter ds.data cfg.mainIndicator minYear maxYear
  ({ data := ds.data, filteredData := out.filteredData }, out)

/-- State of the two year sliders of one dataset section. -/
structure SliderState where
  minVal : Int
  maxVal : Int
deriving DecidableEq

/-- One slider input event: the user drags the min or the max slider to a
new value. -/
inductive SliderEvent
  | setMin (v : Int)
  | setMax (v : Int)

/-- Embedding of the two input listeners installed by `initializeSliders`:
moving the min slider above the max slider drags the max slider up to it,
and moving the max slider below the min slider drags the min slider down. -/
def sliderStep (s : SliderState) (e : SliderEvent) : SliderState :=
  match e with
  | .setMin v => { minVal := v, maxVal := if v > s.maxVal then v else s.maxVal }
  | .setMax v => { minVal := if v < s.minVal then v else s.minVal, maxVal := v }

/-- Initial slider values set by `initializeSliders`: 2000 and 2024. -/
def initialSliderState : SliderState := { minVal := 2000, maxVal := 2024 }

/-- Slider state after a sequence of input events, starting from the
initial values of `initializeSliders`. -/
def runSliders (evs : List SliderEvent) : SliderState :=
  evs.foldl sliderStep initialSliderState

/-- Example dataset configuration used by the concrete witnesses, matching
the example of spec section 8. -/
def cfgEx : DatasetConfig :=
  { key := "marine-protected-areas"
    columnMap := [("Coverage", "coverage")]
    minYear := 2000
    maxYear := 2024
    mainIndicator := "coverage" }

/-- Raw row with a well-formed entity, year and value. -/
def rowGood : RawRow := fun h =>
  if h = "Entity" then some " Brazil "
  else if h = "Year" then some "2010"
  else if h = "Coverage" then some "42.5" else none

/-- Raw row whose entity is a single space: nonempty, whitespace-only. -/
def rowWsEntity : RawRow := fun h =>
  if h = "Entity" then some " "
  else if h = "Year" then some "2010"
  else if h = "Coverage" then some "42.5" else none

/-- Raw row whose entity is the empty string. -/
def rowEmptyEntity : RawRow := fun h =>
  if h = "Entity" then some ""
  else if h = "Year" then some "2010"
  else if h = "Coverage" then some "42.5" else none

/-- Raw row whose year is non-numeric text. -/
def rowBadYear : RawRow := fun h =>
  if h = "Entity" then some "Chile"
  else if h = "Year" then some "abc"
  else if h = "Coverage" then some "7" else none

/-- Example metadata carrying no citation. -/
def metaNoCitation : Metadata := { chartCitation := none }

/-- Raw row whose year has a numeric prefix followed by junk. -/
def rowPrefixYear : RawRow := fun h =>
  if h = "Entity" then some "Peru"
  else if h = "Year" then some "2010.9"
  else if h = "Coverage" then some "5" else none

/-- Example record inside the year bounds of `cfgEx`. -/
def recEx : Record :=
  { Entity := "Brazil", Year := 2010, fields := [("coverage", 10)] }

theorem keepRow_iff (cfg : DatasetConfig) (r : Record) :
    keepRow cfg r = true ↔
      r.Entity ≠ "Desconhecido" ∧ cfg.minYear ≤ r.Year ∧ r.Year ≤ cfg.maxYear := by
  simp [keepRow, and_assoc]

theorem keepRow_of_mem_processCsv {cfg : DatasetConfig} {r : Record}
    {rows : List RawRow} (h : r ∈ processCsv cfg rows) : keepRow cfg r = true :=
  (List.mem_filter.mp h).2

theorem mem_processCsv {cfg : DatasetConfig} {row : RawRow} {rows : List RawRow}
    (hrow : row ∈ rows) (hk : keepRow cfg (normalizeRow cfg row) = true) :
    normalizeRow cfg row ∈ processCsv cfg rows :=
  List.mem_filter.mpr ⟨List.mem_map_of_mem _ hrow, hk⟩

theorem jsOrZeroInt_some (n : Int) : jsOrZeroInt (some n) = n := by
  show (if n = 0 then 0 else n) = n
  split <;> omega

/-- C1 counterexample: the raw row whose Entity is a single space — a
nonempty, whitespace-only Entity — normalizes to the empty string, not to
the sentinel `Desconhecido`, and the loader filter keeps it in `data`;
the claim asserted the sentinel and the exclusion. -/
theorem C1_counterexample :
    (normalizeRow cfgEx rowWsEntity).Entity ≠ "Desconhecido" ∧
      normalizeRow cfgEx rowWsEntity ∈ processCsv cfgEx [rowWsEntity] := by
  constructor
  · decide
  · exact mem_processCsv (List.mem_singleton.mpr rfl) (by decide)

/-- C1 amended: the sentinel substitution happens before the trim, so only
an absent or exactly-empty Entity yields the sentinel (and is excluded from
`data`); a nonempty whitespace-only Entity trims to the empty string, is
not the sentinel, and is retained whenever its Year is within bounds. -/
theorem C1_empty_entity (cfg : DatasetConfig) (row : RawRow)
    (rows : List RawRow) (hrow : row ∈ rows) :
    ((row "Entity" = none ∨ row "Entity" = some "") →
      (normalizeRow cfg row).Entity = "Desconhecido" ∧
        normalizeRow cfg row ∉ processCsv cfg rows) ∧
    (∀ s, row "Entity" = some s → s ≠ "" → jsTrim s = "" →
      (normalizeRow cfg row).Entity = "" ∧
        (cfg.minYear ≤ (normalizeRow cfg row).Year →
          (normalizeRow cfg row).Year ≤ cfg.maxYear →
          normalizeRow cfg row ∈ processCsv cfg rows)) := by
  constructor
  · intro h
    have hE : (normalizeRow cfg row).Entity = "Desconhecido" := by
      rcases h with h | h <;> simp [normalizeRow, h, jsOrString] <;> decide
    refine ⟨hE, fun hmem => ?_⟩
    have hk := (keepRow_iff cfg _).mp (keepRow_of_mem_processCsv hmem)
    exact hk.1 hE
  · intro s hs hne htrim
    have hE : (normalizeRow cfg row).Entity = "" := by
      simp only [normalizeRow]
      rw [hs]
      simp [jsOrString, hne, htrim]
    refine ⟨hE, fun h1 h2 => ?_⟩
    refine mem_processCsv hrow ((keepRow_iff cfg _).mpr ⟨?_, h1, h2⟩)
    rw [hE]
    decide

/-- C1 witness: the whitespace-Entity row instantiates the amended claim —
its Entity trims to the empty string and the record stays in `data`. -/
theorem C1_witness :
    (normalizeRow cfgEx rowWsEntity).Entity = "" ∧
      normalizeRow cfgEx rowWsEntity ∈ processCsv cfgEx [rowWsEntity] := by
  have h := (C1_empty_entity cfgEx rowWsEntity [rowWsEntity]
    (List.mem_singleton.mpr rfl)).2 " " (by decide) (by decide) (by decide)
  exact ⟨h.1, h.2 (by decide) (by decide)⟩

/-- C3: whenever `loadDataset` assigns `config.data`, every stored record
has an Entity different from the sentinel and a Year within the dataset's
bounds — the row filter enforces exactly this predicate. -/
theorem C3_loader_invariant (cfg : DatasetConfig)
    (metaResult : Except String Metadata) (csvFetch : Except String String)
    (papaParse : String → Except String (List RawRow)) (d : List Record)
    (hd : (loadDataset cfg metaResult csvFetch papaParse).data = some d) :
    ∀ r ∈ d, r.Entity ≠ "Desconhecido" ∧
      cfg.minYear ≤ r.Year ∧ r.Year ≤ cfg.maxYear := by
  intro r hr
  rcases metaResult with e | meta
  · simp [loadDataset] at hd
  · rcases csvFetch with e | text
    · simp [loadDataset] at hd
    · rcases hpt : papaParse text with e | rows
      · simp [loadDataset, hpt] at hd
      · simp [loadDataset, hpt] at hd
        subst hd
        exact (keepRow_iff cfg r).mp (keepRow_of_mem_processCsv hr)

/-- C3 witness: a successful load of the good example row satisfies the
invariant at that row. -/
theorem C3_witness :
    (normalizeRow cfgEx rowGood).Entity ≠ "Desconhecido" ∧
      cfgEx.minYear ≤ (normalizeRow cfgEx rowGood).Year ∧
      (normalizeRow cfgEx rowGood).Year ≤ cfgEx.maxYear :=
  C3_loader_invariant cfgEx (.ok metaNoCitation) (.ok "csv")
    (fun _ => .ok [rowGood]) (processCsv cfgEx [rowGood]) rfl
    (normalizeRow cfgEx rowGood)
    (mem_processCsv (List.mem_singleton.mpr rfl) (by decide))

/-- C4: a Year cell on which `parseInt` yields NaN normalizes to 0, and
when 0 is outside the dataset's year bounds the row filter drops the
record from `data`. -/
theorem C4_nonnumeric_year (cfg : DatasetConfig) (row : RawRow)
    (rows : List RawRow) (s : String) (hs : row "Year" = some s)
    (hbad : parseIntJS s = none) :
    (normalizeRow cfg row).Year = 0 ∧
      ((0 < cfg.minYear ∨ cfg.maxYear < 0) →
        normalizeRow cfg row ∉ processCsv cfg rows) := by
  have hY : (normalizeRow cfg row).Year = 0 := by
    simp [normalizeRow, hs, hbad, jsOrZeroInt]
  refine ⟨hY, fun hout hmem => ?_⟩
  have hk := (keepRow_iff cfg _).mp (keepRow_of_mem_processCsv hmem)
  rw [hY] at hk
  rcases hout with h | h <;> omega

/-- C4 witness: the row with Year `abc` normalizes to Year 0 and is
excluded under the bounds 2000–2024 of the example configuration. -/
theorem C4_witness :
    (normalizeRow cfgEx rowBadYear).Year = 0 ∧
      normalizeRow cfgEx rowBadYear ∉ processCsv cfgEx [rowBadYear] := by
  have h := C4_nonnumeric_year cfgEx rowBadYear [rowBadYear] "abc"
    (by decide) (by decide)
  exact ⟨h.1, h.2 (Or.inl (by decide))⟩

/-- C5: for every column-map entry the normalizer stores, under the
semantic name, the `parseFloat` of the raw cell with `|| 0` applied, so an
absent or unparsable cell degrades to 0 instead of raising an error (the
normalizer is a total function). -/
theorem C5_field_defaults (cfg : DatasetConfig) (row : RawRow) (o n : String)
    (hmap : (o, n) ∈ cfg.columnMap) :
    (n, jsOrZeroRat ((row o).bind parseFloatJS)) ∈
        (normalizeRow cfg row).fields ∧
      (row o = none → jsOrZeroRat ((row o).bind parseFloatJS) = 0) ∧
      (∀ s, row o = some s → parseFloatJS s = none →
        jsOrZeroRat ((row o).bind parseFloatJS) = 0) := by
  refine ⟨List.mem_map_of_mem _ hmap, fun h => ?_, fun s hs hfail => ?_⟩
  · rw [h]
    rfl
  · rw [hs]
    simp [hfail, jsOrZeroRat]

/-- C5 witness: the Coverage column of the example configuration at the
good example row. -/
theorem C5_witness :
    ("coverage", jsOrZeroRat ((rowGood "Coverage").bind parseFloatJS)) ∈
        (normalizeRow cfgEx rowGood).fields ∧
      (rowGood "Coverage" = none →
        jsOrZeroRat ((rowGood "Coverage").bind parseFloatJS) = 0) ∧
      (∀ s, rowGood "Coverage" = some s → parseFloatJS s = none →
        jsOrZeroRat ((rowGood "Coverage").bind parseFloatJS) = 0) :=
  C5_field_defaults cfgEx rowGood "Coverage" "coverage" (by decide)

/-- C10: the normalized Year is exactly the `parseInt` result whenever one
exists — so a string with a valid integer prefix followed by other
characters yields the prefix integer — and only a NaN parse defaults
to 0. -/
theorem C10_year_prefix (cfg : DatasetConfig) (row : RawRow) (s : String)
    (hs : row "Year" = some s) :
    (∀ n : Int, parseIntJS s = some n → (normalizeRow cfg row).Year = n) ∧
      (parseIntJS s = none → (normalizeRow cfg row).Year = 0) := by
  constructor
  · intro n hn
    simp only [normalizeRow]
    rw [hs]
    simp only [Option.bind, hn]
    exact jsOrZeroInt_some n
  · intro hn
    simp [normalizeRow, hs, hn, jsOrZeroInt]

/-- C10 witness: Year cell `2010.9` normalizes to 2010, not 0. -/
theorem C10_witness : (normalizeRow cfgEx rowPrefixYear).Year = 2010 := by
  have h := C10_year_prefix cfgEx rowPrefixYear "2010.9" (by decide)
  exact h.1 2010 (by decide)

/-- C2 counterexample: when the metadata fetch fails, `loadDataset` jumps
to the `catch` before the CSV fetch — `data` is never populated, the
citation is never written (no default fallback), and the loader shows the
error; the claim asserted the load proceeds with a default citation. -/
theorem C2_counterexample :
    (loadDataset cfgEx (.error "falha") (.ok "csv")
        (fun _ => .ok [rowGood])).data = none ∧
      (loadDataset cfgEx (.error "falha") (.ok "csv")
        (fun _ => .ok [rowGood])).citationSet = none ∧
      (loadDataset cfgEx (.error "falha") (.ok "csv")
        (fun _ => .ok [rowGood])).loaderError = some "Erro: falha" :=
  ⟨rfl, rfl, rfl⟩

/-- C2 amended: a metadata fetch or JSON-parse failure aborts the whole
load (CSV never processed, `data` not populated, loader shows the error);
the `Fonte: <datasetKey>` fallback applies only when the metadata fetch
succeeds but carries no citation, in which case the load continues and,
with a good CSV, populates `data`. -/
theorem C2_metadata_failure (cfg : DatasetConfig) (e text : String)
    (meta : Metadata) (csvFetch : Except String String)
    (papaParse : String → Except String (List RawRow)) (rows : List RawRow)
    (hmeta : meta.chartCitation = none) (hparse : papaParse text = .ok rows) :
    loadDataset cfg (.error e) csvFetch papaParse =
      { citationSet := none, data := none
        loaderError := some ("Erro: " ++ e), applyEnabled := false } ∧
    loadDataset cfg (.ok meta) (.ok text) papaParse =
      { citationSet := some ("Fonte: " ++ cfg.key)
        data := some (processCsv cfg rows)
        loaderError := none, applyEnabled := true } := by
  constructor
  · rfl
  · simp [loadDataset, hparse, citationText, hmeta, jsOrString]

/-- C2 witness: amended behaviour at the example configuration, with a
failing and then a citation-less successful metadata fetch. -/
theorem C2_witness :
    loadDataset cfgEx (.error "falha") (.ok "csv") (fun _ => .ok [rowGood]) =
      { citationSet := none, data := none
        loaderError := some ("Erro: " ++ "falha"), applyEnabled := false } ∧
    loadDataset cfgEx (.ok metaNoCitation) (.ok "csv")
        (fun _ => .ok [rowGood]) =
      { citationSet := some ("Fonte: " ++ cfgEx.key)
        data := some (processCsv cfgEx [rowGood])
        loaderError := none, applyEnabled := true } :=
  C2_metadata_failure cfgEx "falha" "csv" metaNoCitation (.ok "csv")
    (fun _ => .ok [rowGood]) [rowGood] rfl rfl

/-- C6: with inverted bounds the Range Filter computes exactly the output
of the call with the bounds swapped, and when some record lies within the
swapped bounds the filtered data is nonempty. -/
theorem C6_swapped_bounds (data : List Record) (ind : String) (a b : Int)
    (hab : b < a) (r : Record) (hr : r ∈ data) (h1 : b ≤ r.Year)
    (h2 : r.Year ≤ a) :
    rangeFilter data ind a b = rangeFilter data ind b a ∧
      (rangeFilter data ind a b).filteredData ≠ [] := by
  have hlo : swapLo a b = swapLo b a := by
    unfold swapLo
    split <;> split <;> omega
  have hhi : swapHi a b = swapHi b a := by
    unfold swapHi
    split <;> split <;> omega
  constructor
  · unfold rangeFilter
    rw [hlo, hhi]
  · have hlo2 : swapLo a b = b := by
      unfold swapLo
      split <;> omega
    have hhi2 : swapHi a b = a := by
      unfold swapHi
      split <;> omega
    have hmem : r ∈ (rangeFilter data ind a b).filteredData := by
      show r ∈ data.filter (inRange (swapLo a b) (swapHi a b))
      refine List.mem_filter.mpr ⟨hr, ?_⟩
      rw [hlo2, hhi2]
      simp [inRange, h1, h2]
    exact List.ne_nil_of_mem hmem

/-- C6 witness: bounds 2024 and 2000 given in the wrong order, with one
record at year 2010. -/
theorem C6_witness :
    rangeFilter [recEx] "coverage" 2024 2000 =
        rangeFilter [recEx] "coverage" 2000 2024 ∧
      (rangeFilter [recEx] "coverage" 2024 2000).filteredData ≠ [] :=
  C6_swapped_bounds [recEx] "coverage" 2024 2000 (by decide) recEx
    (List.mem_singleton.mpr rfl) (by decide) (by decide)

/-- C7: a filter application reads `data` but never writes it, and a second
application with the same bounds on the resulting state yields exactly the
same state and the same output tables. -/
theorem C7_filter_pure (cfg : DatasetConfig) (ds : Dataset) (a b : Int) :
    (applyRangeFilter cfg ds a b).1.data = ds.data ∧
      applyRangeFilter cfg (applyRangeFilter cfg ds a b).1 a b =
        applyRangeFilter cfg ds a b :=
  ⟨rfl, rfl⟩

/-- C8: a CSV fetch failure or a CSV parse failure after a successful
metadata fetch leaves `data` unassigned, puts the error text in the loader,
and the per-dataset store is unchanged at every key — the loaded key
included, and a fortiori every other dataset. -/
theorem C8_csv_failure_fatal (cfg : DatasetConfig) (meta : Metadata)
    (e : String) (csvFetch : Except String String)
    (papaParse : String → Except String (List RawRow)) (st : DashState)
    (hfail : csvFetch = .error e ∨
      ∃ text, csvFetch = .ok text ∧ papaParse text = .error e) :
    (loadDataset cfg (.ok meta) csvFetch papaParse).data = none ∧
      (loadDataset cfg (.ok meta) csvFetch papaParse).loaderError =
        some ("Erro: " ++ e) ∧
      ∀ k, applyLoadResult st cfg.key
        (loadDataset cfg (.ok meta) csvFetch papaParse) k = st k := by
  have hres : loadDataset cfg (.ok meta) csvFetch papaParse =
      { citationSet := some (citationText meta cfg.key), data := none
        loaderError := some ("Erro: " ++ e), applyEnabled := false } := by
    rcases hfail with h | ⟨text, hcf, hp⟩
    · subst h
      rfl
    · subst hcf
      simp [loadDataset, hp]
  rw [hres]
  refine ⟨rfl, rfl, fun k => ?_⟩
  unfold applyLoadResult
  split <;> rfl

/-- C8 witness: a failing CSV fetch for the example dataset leaves an
initially empty store untouched. -/
theorem C8_witness :
    (loadDataset cfgEx (.ok metaNoCitation) (.error "rede")
        (fun _ => .ok [rowGood])).data = none ∧
      (loadDataset cfgEx (.ok metaNoCitation) (.error "rede")
        (fun _ => .ok [rowGood])).loaderError = some ("Erro: " ++ "rede") ∧
      ∀ k, applyLoadResult (fun _ => none) cfgEx.key
        (loadDataset cfgEx (.ok metaNoCitation) (.error "rede")
          (fun _ => .ok [rowGood])) k = (fun _ => none : DashState) k :=
  C8_csv_failure_fatal cfgEx metaNoCitation "rede" (.error "rede")
    (fun _ => .ok [rowGood]) (fun _ => none) (Or.inl rfl)

theorem sliderStep_mono (s : SliderState) (e : SliderEvent) :
    (sliderStep s e).minVal ≤ (sliderStep s e).maxVal := by
  cases e with
  | setMin v =>
      simp only [sliderStep]
      split <;> omega
  | setMax v =>
      simp only [sliderStep]
      split <;> omega

theorem foldl_slider_inv (evs : List SliderEvent) :
    ∀ s : SliderState, s.minVal ≤ s.maxVal →
      (evs.foldl sliderStep s).minVal ≤ (evs.foldl sliderStep s).maxVal := by
  induction evs with
  | nil => exact fun s h => h
  | cons e t ih => exact fun s _ => ih _ (sliderStep_mono s e)

/-- C9: starting from the initial values set by `initializeSliders`, every
sequence of slider input events leaves the min slider at or below the max
slider — each listener clamps the opposite slider when the new value would
cross it. -/
theorem C9_slider_invariant (evs : List SliderEvent) :
    (runSliders evs).minVal ≤ (runSliders evs).maxVal :=
  foldl_slider_inv evs initialSliderState (by decide)

end MT
